import Mathlib

/-!
Shallow embedding of `folder_monitor.py` (Folder Monitor with ntfy.sh).

The script filters filesystem events (`should_process_event`), formats each
accepted event into a JSON payload for the ntfy.sh relay (`send_notification`),
renders human-readable file sizes (`_get_file_size`), and wires a start/stop
lifecycle in `main`. Filesystem lookups, wall-clock time and the HTTP transport
are effects of the environment; they are modelled here as explicit inputs
(`SizeLookup`, the `now` timestamp string, `TransportResult`). Python floats in
the size loop are modelled as the exact dyadic rationals n / 1024^k, which the
doubles used by the script represent exactly for every n below 2^53, and the
`%.2f` formatting as round-half-even on that exact value, which is what Python
performs on those exactly-represented doubles.
-/

namespace FolderMonitor

/-- ASCII lowercasing, as Python's `str.lower` behaves on the ASCII
extension strings this program compares. -/
def lowerStr (s : String) : String :=
  String.mk (s.data.map Char.toLower)

/-- Characters after the last '/' of a path (the base filename, as
`posixpath.basename` computes it). -/
def basenameChars (cs : List Char) : List Char :=
  (cs.reverse.takeWhile (fun c => c != '/')).reverse

/-- `os.path.basename` for POSIX paths. -/
def basename (s : String) : String :=
  String.mk (basenameChars s.data)

/-- Python `p.rsplit('/', 1)[0]`: everything before the last '/', or the whole
string when it contains no '/'. `on_moved` (line 143) compares these values to
decide between the rename title and the plain move title. -/
def rsplitSlashHead (s : String) : String :=
  if s.data.contains '/' then
    String.mk (((s.data.reverse.dropWhile (fun c => c != '/')).drop 1).reverse)
  else s

/-- The extension component of `os.path.splitext` on POSIX: the suffix of the
path starting at the last '.' of the base filename, except that when every
character of the base filename before that dot is itself a '.', the extension
is empty (leading dots are part of the root, so dotfiles such as ".txt" have
no extension). This transliterates CPython's `genericpath._splitext`. -/
def splitextExt (s : String) : String :=
  let base := basenameChars s.data
  if base.contains '.' then
    let afterDot := (base.reverse.takeWhile (fun c => c != '.')).reverse
    let beforeDot := ((base.reverse.dropWhile (fun c => c != '.')).drop 1).reverse
    if beforeDot.any (fun c => c != '.') then String.mk ('.' :: afterDot) else ""
  else ""

/-- The extension exactly as the specification's words describe it: "the
substring after the last '.' in the base filename, including the dot; empty
string if none". Stated from the spec, to be compared with `splitextExt`. -/
def extPerClaim (s : String) : String :=
  let base := basenameChars s.data
  if base.contains '.' then
    String.mk ('.' :: (base.reverse.takeWhile (fun c => c != '.')).reverse)
  else ""

/-- The kind of a watchdog filesystem event (which handler callback fires). -/
inductive EventKind where
  | created
  | modified
  | deleted
  | moved
deriving DecidableEq

/-- A watchdog filesystem event: source path, destination path (watchdog's
`FileSystemEvent.dest_path` defaults to the empty string and is set only for
moved events), and the directory flag. -/
structure FileEvent where
  kind : EventKind
  src_path : String
  dest_path : String
  is_directory : Bool
deriving DecidableEq

/-- The configuration held by `FileChangeHandler.__init__` (lines 33-44):
topic, extension allow-list (`[]` models Python `None` or an empty list, both
falsy at line 65), and the directory-exclusion flag. -/
structure HandlerConfig where
  topic : String
  include_extensions : List String
  exclude_directories : Bool
deriving DecidableEq

/-- `FileChangeHandler.should_process_event` (lines 58-70), transliterated with
the same early-return structure. -/
def should_process_event (h : HandlerConfig) (event : FileEvent) : Bool :=
  if h.exclude_directories && event.is_directory then false
  else
    if !h.include_extensions.isEmpty && !event.is_directory then
      if !(h.include_extensions.contains (lowerStr (splitextExt event.src_path))) then false
      else true
    else true

/-- The event filter exactly as claim C1's words describe it, using the
claim's own notion of extension (`extPerClaim`). -/
def shouldProcessPerClaim (h : HandlerConfig) (e : FileEvent) : Bool :=
  if h.exclude_directories && e.is_directory then false
  else if !h.include_extensions.isEmpty && !e.is_directory then
    h.include_extensions.contains (lowerStr (extPerClaim e.src_path))
  else true

/-- The event filter as the amended claim describes it: the clause structure of
the spec, with the extension computed by `os.path.splitext` semantics
(`splitextExt`), under which leading-dot filenames have no extension. -/
def shouldProcessAmended (h : HandlerConfig) (e : FileEvent) : Bool :=
  if h.exclude_directories && e.is_directory then false
  else if !e.is_directory && !h.include_extensions.isEmpty then
    h.include_extensions.contains (lowerStr (splitextExt e.src_path))
  else true

/-- The ntfy.sh JSON payload built by `send_notification` (lines 179-207).
`topic` and `message` are unconditional keys; every other field is `Option`,
with `none` meaning the key is absent from the JSON object. -/
structure NotificationPayload where
  topic : String
  message : String
  title : Option String
  priority : Option Int
  tags : Option (List String)
  click : Option String
  attach : Option String
  actions : Option String
deriving DecidableEq

/-- The `priority` argument of `send_notification`: Python `None`, a string
level, or an integer. -/
inductive PriorityArg where
  | pnone : PriorityArg
  | pstr : String → PriorityArg
  | pint : Int → PriorityArg
deriving DecidableEq

/-- The name-to-number priority table of lines 189-195. -/
def priority_map : List (String × Int) :=
  [("urgent", 5), ("high", 4), ("default", 3), ("low", 2), ("min", 1)]

/-- The payload-construction part of `send_notification` (lines 179-207).
Python truthiness gates each optional field: an absent (`None`) or empty
string, and an absent or zero priority, leave the key out of the payload.
A string priority is looked up in `priority_map` and silently dropped when
absent from the table; an integer priority is stored unchanged (line 199).
`tags` is stored as the single-element list `[tags]` (line 201). -/
def send_payload (h : HandlerConfig) (message : String) (title : Option String)
    (priority : PriorityArg) (tags click attach actions : Option String) :
    NotificationPayload :=
  let titleField :=
    match title with
    | some t => if t.length = 0 then Option.none else some t
    | Option.none => Option.none
  let priorityField :=
    match priority with
    | PriorityArg.pnone => Option.none
    | PriorityArg.pstr s =>
      if s.length = 0 then Option.none
      else
        match priority_map.lookup s with
        | some v => some v
        | Option.none => Option.none
    | PriorityArg.pint n => if n = 0 then Option.none else some n
  let tagsField :=
    match tags with
    | some t => if t.length = 0 then Option.none else some [t]
    | Option.none => Option.none
  let clickField :=
    match click with
    | some c => if c.length = 0 then Option.none else some c
    | Option.none => Option.none
  let attachField :=
    match attach with
    | some a => if a.length = 0 then Option.none else some a
    | Option.none => Option.none
  let actionsField :=
    match actions with
    | some a => if a.length = 0 then Option.none else some a
    | Option.none => Option.none
  NotificationPayload.mk h.topic message titleField priorityField tagsField
    clickField attachField actionsField

/-- What `_get_file_size`'s environment lookups produced: `os.path.isfile`
true with a byte count from `os.path.getsize`, `isfile` false (directory or
already-deleted path), or an exception raised by either lookup. -/
inductive SizeLookup where
  | file : Nat → SizeLookup
  | notFile : SizeLookup
  | err : String → SizeLookup
deriving DecidableEq

/-- Python `f"{x:.2f}"` applied to the exact value n / 1024^k: two-decimal
formatting with round-half-even, which is what CPython performs on the
double, and the double equals this rational exactly for n < 2^53. -/
def formatTwoDecRat (n k : Nat) : String :=
  let d := 1024 ^ k
  let scaled := n * 100
  let q := scaled / d
  let r := scaled % d
  let q2 :=
    if 2 * r < d then q
    else if d < 2 * r then q + 1
    else if q % 2 = 0 then q else q + 1
  let ip := q2 / 100
  let fp := q2 % 100
  toString ip ++ "." ++ (if fp < 10 then "0" ++ toString fp else toString fp)

/-- The unit list of line 153. -/
def sizeUnits : List String :=
  ["B", "KB", "MB", "GB", "TB"]

/-- The loop of lines 153-156: after k divisions the running value is
n / 1024^k, and the test `size_bytes < 1024` is `n < 1024 ^ (k + 1)`.
`none` models the loop finishing without returning (unreachable with the
actual unit list, falling through to line 157). -/
def sizeLoop (n : Nat) : Nat → List String → Option String
  | _, [] => Option.none
  | k, u :: us =>
    if n < 1024 ^ (k + 1) ∨ u = "TB" then some (formatTwoDecRat n k ++ " " ++ u)
    else sizeLoop n (k + 1) us

/-- `FileChangeHandler._get_file_size` (lines 148-160). -/
def get_file_size : SizeLookup → String
  | SizeLookup.file n => (sizeLoop n 0 sizeUnits).getD "N/A (directory)"
  | SizeLookup.notFile => "N/A (directory)"
  | SizeLookup.err _ => "Unknown"

/-- The unit index the specification describes: the first unit in
{B, KB, MB, GB, TB} at which the running value is under 1024, or TB (index 4)
when every threshold is exceeded. Stated from the spec's words. -/
def sizeUnitIndex (n : Nat) : Nat :=
  if n < 1024 ^ 1 then 0
  else if n < 1024 ^ 2 then 1
  else if n < 1024 ^ 3 then 2
  else if n < 1024 ^ 4 then 3
  else 4

/-- Outcome of `requests.post`: a response with a status code, or a raised
transport-level exception. -/
inductive TransportResult where
  | response : Nat → TransportResult
  | exception : String → TransportResult
deriving DecidableEq

/-- A log record emitted through the module logger. -/
inductive LogEntry where
  | debug : String → LogEntry
  | error : String → LogEntry
  | info : String → LogEntry
deriving DecidableEq

/-- How Python renders an optional string inside an f-string: `None` prints
as "None". -/
def pyShowOptStr : Option String → String
  | some s => s
  | Option.none => "None"

/-- The try/except around the POST in `send_notification` (lines 209-220):
status 200 logs at debug level, any other status logs an error naming the
code, a raised exception is caught and logged as an error. Total by
construction: every delivery outcome returns a log entry, none propagates. -/
def deliver_log (title : Option String) : TransportResult → LogEntry
  | TransportResult.response code =>
    if code = 200 then LogEntry.debug ("Notification sent: " ++ pyShowOptStr title)
    else LogEntry.error ("Failed to send notification: " ++ toString code)
  | TransportResult.exception m =>
    LogEntry.error ("Error sending notification: " ++ m)

/-- The environment one event callback observes: the size lookup for the
event's path, the formatted `datetime.now()` timestamp, and the outcome of
the HTTP POST. -/
structure EventEnv where
  size : SizeLookup
  now : String
  transport : TransportResult
deriving DecidableEq

/-- The payload built by `on_created` (lines 72-89). -/
def on_created_payload (h : HandlerConfig) (env : EventEnv) (e : FileEvent) :
    NotificationPayload :=
  send_payload h
    ("File created: " ++ basename e.src_path ++ "\nLocation: " ++ e.src_path ++
      "\nSize: " ++ get_file_size env.size ++ "\nTime: " ++ env.now)
    (some "File Created") (PriorityArg.pint 3) (some "file_folder,new")
    Option.none Option.none Option.none

/-- The payload built by `on_modified` (lines 91-108). -/
def on_modified_payload (h : HandlerConfig) (env : EventEnv) (e : FileEvent) :
    NotificationPayload :=
  send_payload h
    ("File modified: " ++ basename e.src_path ++ "\nLocation: " ++ e.src_path ++
      "\nSize: " ++ get_file_size env.size ++ "\nTime: " ++ env.now)
    (some "File Modified") (PriorityArg.pint 2) (some "pencil")
    Option.none Option.none Option.none

/-- The payload built by `on_deleted` (lines 110-126); no size field. -/
def on_deleted_payload (h : HandlerConfig) (env : EventEnv) (e : FileEvent) :
    NotificationPayload :=
  send_payload h
    ("File deleted: " ++ basename e.src_path ++ "\nLocation: " ++ e.src_path ++
      "\nTime: " ++ env.now)
    (some "File Deleted") (PriorityArg.pint 4) (some "wastebasket,warning")
    Option.none Option.none Option.none

/-- The title chosen by `on_moved` (line 143): the rename form when the text
before the last '/' agrees on both paths, the plain move form otherwise. -/
def movedTitle (e : FileEvent) : String :=
  if rsplitSlashHead e.src_path = rsplitSlashHead e.dest_path then
    "File Renamed: " ++ basename e.src_path ++ " → " ++ basename e.dest_path
  else "File Moved"

/-- The payload built by `on_moved` (lines 128-146). -/
def on_moved_payload (h : HandlerConfig) (env : EventEnv) (e : FileEvent) :
    NotificationPayload :=
  send_payload h
    ("File moved:\nFrom: " ++ e.src_path ++ "\nTo: " ++ e.dest_path ++
      "\nTime: " ++ env.now)
    (some (movedTitle e)) (PriorityArg.pint 3) (some "arrow_right")
    Option.none Option.none Option.none

/-- Dispatch of an accepted event to its handler's payload. -/
def eventPayload (h : HandlerConfig) (env : EventEnv) (e : FileEvent) :
    NotificationPayload :=
  match e.kind with
  | EventKind.created => on_created_payload h env e
  | EventKind.modified => on_modified_payload h env e
  | EventKind.deleted => on_deleted_payload h env e
  | EventKind.moved => on_moved_payload h env e

/-- One watchdog callback invocation: filter, then build the payload and run
delivery, observing its log. `none` means the event was filtered out. -/
def handleEvent (h : HandlerConfig) (env : EventEnv) (e : FileEvent) :
    Option (NotificationPayload × LogEntry) :=
  if should_process_event h e then
    match e.kind with
    | EventKind.created =>
      some (on_created_payload h env e, deliver_log (some "File Created") env.transport)
    | EventKind.modified =>
      some (on_modified_payload h env e, deliver_log (some "File Modified") env.transport)
    | EventKind.deleted =>
      some (on_deleted_payload h env e, deliver_log (some "File Deleted") env.transport)
    | EventKind.moved =>
      some (on_moved_payload h env e, deliver_log (some (movedTitle e)) env.transport)
  else Option.none

/-- The watch loop as the event source drives it: callbacks run one after the
other, each to completion, and every event gets exactly one slot in the
resulting trace. -/
def processEvents (h : HandlerConfig) :
    List (FileEvent × EventEnv) → List (Option (NotificationPayload × LogEntry))
  | [] => []
  | (e, env) :: rest => handleEvent h env e :: processEvents h rest

/-- The notification sent by `FileChangeHandler.__init__` (lines 47-52). -/
def startup_payload (h : HandlerConfig) : NotificationPayload :=
  send_payload h "Started monitoring folder for changes"
    (some "Folder Monitoring Started") (PriorityArg.pint 3) (some "rocket")
    Option.none Option.none Option.none

/-- The notification sent on KeyboardInterrupt (lines 264-269). -/
def stop_payload (h : HandlerConfig) : NotificationPayload :=
  send_payload h "Folder monitoring stopped by user"
    (some "Monitoring Stopped") (PriorityArg.pint 3) (some "stop_sign")
    Option.none Option.none Option.none

/-- An externally observable action of `main`. -/
inductive MainAction where
  | logError : String → MainAction
  | logInfo : String → MainAction
  | sendPayload : NotificationPayload → MainAction
  | observerStart : MainAction
  | observerStop : MainAction
  | exitProcess : Nat → MainAction
deriving DecidableEq

/-- The control flow of `main` (lines 231-273) as the ordered trace of its
observable actions, indexed by whether the configured path exists and, for an
existing path, abstracting the idle loop to its one exit: the operator's
KeyboardInterrupt. A missing path hits `sys.exit(1)` at line 236, before the
handler (whose constructor sends the start notification) and the observer
exist; otherwise the run ends by falling off `main`, exit status 0. -/
def mainTrace (pathExists : Bool) (h : HandlerConfig) (path : String) :
    List MainAction :=
  if pathExists then
    [MainAction.sendPayload (startup_payload h), MainAction.observerStart,
     MainAction.logInfo "Monitoring stopped by user",
     MainAction.sendPayload (stop_payload h), MainAction.observerStop,
     MainAction.exitProcess 0]
  else
    [MainAction.logError ("The specified path does not exist: " ++ path),
     MainAction.exitProcess 1]

/-- The title `on_moved` builds is never the empty string, so the truthiness
gate at line 184 always keeps it. -/
theorem movedTitle_length_pos (e : FileEvent) : ¬ (movedTitle e).length = 0 := by
  rw [movedTitle]
  split
  · have h14 : ("File Renamed: ").length = 14 := rfl
    simp only [String.length_append]
    omega
  · decide

/-- Claim C1, counterexample: the filter as the claim words it (extension =
substring after the last '.' of the base filename) accepts the dotfile
"/watched/.txt" under the allow-list [".txt"], but the code, which uses
`os.path.splitext`, gives that file an empty extension and rejects it. -/
theorem C1_counterexample :
    shouldProcessPerClaim ⟨"alerts", [".txt"], true⟩
      ⟨EventKind.created, "/watched/.txt", "", false⟩ = true ∧
    should_process_event ⟨"alerts", [".txt"], true⟩
      ⟨EventKind.created, "/watched/.txt", "", false⟩ = false := by
  decide

/-- Claim C1, amended: `should_process_event` rejects every directory event
when `exclude_directories` is set; otherwise, with a non-empty allow-list and
a non-directory event, it computes the lowercase `os.path.splitext` extension
of the source path (under which leading-dot base filenames have an empty
extension) and rejects unless it is a member of the allow-list; in every other
case it accepts. The predicate is a pure total function. The spec's examples
"a/b.txt" (accepted) and "a/b.md" (rejected) under [".txt"] hold. -/
theorem C1_filter_amended :
    (∀ topic exts k src dest,
      should_process_event ⟨topic, exts, true⟩ ⟨k, src, dest, true⟩ = false) ∧
    (∀ h e, should_process_event h e = shouldProcessAmended h e) ∧
    should_process_event ⟨"alerts", [".txt"], true⟩
      ⟨EventKind.created, "a/b.txt", "", false⟩ = true ∧
    should_process_event ⟨"alerts", [".txt"], true⟩
      ⟨EventKind.created, "a/b.md", "", false⟩ = false := by
  refine ⟨fun topic exts k src dest => rfl, fun h e => ?_, by decide, by decide⟩
  unfold should_process_event shouldProcessAmended
  cases hd : e.is_directory <;> cases hx : h.exclude_directories <;>
    cases hi : h.include_extensions.isEmpty <;>
      cases hc : h.include_extensions.contains (lowerStr (splitextExt e.src_path)) <;>
        simp [hd, hx, hi, hc]

/-- Claim C2: delivery outcome handling never escapes `send_notification` —
status 200 is logged at debug level, any other status is logged as an error
naming the code, a transport exception is caught and logged as an error; in
all three cases exactly one log entry comes back and the function returns
normally. Consequently the loop result for the events after any given event
does not depend on that event's transport outcome, and every event occupies
exactly one slot of the loop's trace (dropped on failure, never retried). -/
theorem C2_delivery_contained :
    (∀ t, deliver_log t (TransportResult.response 200) =
      LogEntry.debug ("Notification sent: " ++ pyShowOptStr t)) ∧
    (∀ t c, ¬ c = 200 → deliver_log t (TransportResult.response c) =
      LogEntry.error ("Failed to send notification: " ++ toString c)) ∧
    (∀ t m, deliver_log t (TransportResult.exception m) =
      LogEntry.error ("Error sending notification: " ++ m)) ∧
    (∀ h e env1 env2 rest,
      (processEvents h ((e, env1) :: rest)).tail =
        (processEvents h ((e, env2) :: rest)).tail) ∧
    (∀ h l, (processEvents h l).length = l.length) := by
  refine ⟨fun t => rfl, fun t c hc => ?_, fun t m => rfl,
    fun h e env1 env2 rest => rfl, fun h l => ?_⟩
  · simp only [deliver_log]
    rw [if_neg hc]
  · induction l with
    | nil => rfl
    | cons x rest ih =>
      obtain ⟨e, env⟩ := x
      simp [processEvents, ih]

/-- Witness for C2: a concrete failed delivery (status 500) yields the error
log entry and returns it normally. -/
theorem C2_delivery_contained_witness :
    deliver_log (some "File Created") (TransportResult.response 500) =
      LogEntry.error ("Failed to send notification: " ++ toString (500 : Nat)) :=
  C2_delivery_contained.2.1 (some "File Created") 500 (by decide)

/-- Claim C3: `_get_file_size` on a regular file of n bytes repeatedly divides
by 1024 and formats the value at the first unit in {B, KB, MB, GB, TB} whose
running value is under 1024 (TB when all thresholds are exceeded) with two
decimals; 0 bytes gives "0.00 B", 1536 gives "1.50 KB", 1073741824 gives
"1.00 GB"; a path that is not currently a regular file gives
"N/A (directory)"; a raised lookup error is caught and gives "Unknown". -/
theorem C3_file_size :
    (∀ n, get_file_size (SizeLookup.file n) =
      formatTwoDecRat n (sizeUnitIndex n) ++ " " ++
        sizeUnits.getD (sizeUnitIndex n) "TB") ∧
    get_file_size (SizeLookup.file 0) = "0.00 B" ∧
    get_file_size (SizeLookup.file 1536) = "1.50 KB" ∧
    get_file_size (SizeLookup.file 1073741824) = "1.00 GB" ∧
    get_file_size SizeLookup.notFile = "N/A (directory)" ∧
    (∀ m, get_file_size (SizeLookup.err m) = "Unknown") := by
  refine ⟨fun n => ?_, by decide, by decide, by decide, rfl, fun m => rfl⟩
  by_cases h1 : n < 1024
  · simp [get_file_size, sizeUnits, sizeLoop, sizeUnitIndex, List.getD, h1]
  · by_cases h2 : n < 1048576
    · simp [get_file_size, sizeUnits, sizeLoop, sizeUnitIndex, List.getD, h1, h2]
    · by_cases h3 : n < 1073741824
      · simp [get_file_size, sizeUnits, sizeLoop, sizeUnitIndex, List.getD, h1, h2, h3]
      · by_cases h4 : n < 1099511627776
        · simp [get_file_size, sizeUnits, sizeLoop, sizeUnitIndex, List.getD,
            h1, h2, h3, h4]
        · simp [get_file_size, sizeUnits, sizeLoop, sizeUnitIndex, List.getD,
            h1, h2, h3, h4]

/-- Claim C4: each named priority level in the table maps to its number
(urgent 5, high 4, default 3, low 2, min 1), an integer 1-5 is stored in the
payload unchanged, and a name absent from the table leaves the priority key
out of the payload. -/
theorem C4_priority_mapping :
    (∀ h m t tg c a ac, (send_payload h m t (PriorityArg.pstr "urgent") tg c a ac).priority = some 5) ∧
    (∀ h m t tg c a ac, (send_payload h m t (PriorityArg.pstr "high") tg c a ac).priority = some 4) ∧
    (∀ h m t tg c a ac, (send_payload h m t (PriorityArg.pstr "default") tg c a ac).priority = some 3) ∧
    (∀ h m t tg c a ac, (send_payload h m t (PriorityArg.pstr "low") tg c a ac).priority = some 2) ∧
    (∀ h m t tg c a ac, (send_payload h m t (PriorityArg.pstr "min") tg c a ac).priority = some 1) ∧
    (∀ h m t tg c a ac (n : Int), 1 ≤ n → n ≤ 5 →
      (send_payload h m t (PriorityArg.pint n) tg c a ac).priority = some n) ∧
    (∀ h m t tg c a ac s, priority_map.lookup s = Option.none →
      (send_payload h m t (PriorityArg.pstr s) tg c a ac).priority = Option.none) := by
  refine ⟨fun _ _ _ _ _ _ _ => rfl, fun _ _ _ _ _ _ _ => rfl,
    fun _ _ _ _ _ _ _ => rfl, fun _ _ _ _ _ _ _ => rfl, fun _ _ _ _ _ _ _ => rfl,
    fun h m t tg c a ac n h1 h5 => ?_, fun h m t tg c a ac s hs => ?_⟩
  · have hz : ¬ n = 0 := by omega
    simp [send_payload, hz]
  · simp [send_payload, hs]

/-- Witness for C4: integer 5 is kept as 5, and the unrecognized name
"banana" leaves the priority field absent. -/
theorem C4_priority_mapping_witness :
    (send_payload ⟨"alerts", [], true⟩ "m" Option.none (PriorityArg.pint 5)
      Option.none Option.none Option.none Option.none).priority = some 5 ∧
    (send_payload ⟨"alerts", [], true⟩ "m" Option.none (PriorityArg.pstr "banana")
      Option.none Option.none Option.none Option.none).priority = Option.none :=
  ⟨C4_priority_mapping.2.2.2.2.2.1 ⟨"alerts", [], true⟩ "m" Option.none
      Option.none Option.none Option.none Option.none 5 (by decide) (by decide),
    C4_priority_mapping.2.2.2.2.2.2 ⟨"alerts", [], true⟩ "m" Option.none
      Option.none Option.none Option.none Option.none "banana" (by decide)⟩

/-- Claim C5: a moved event's title is "File Renamed: src → dest" exactly when
the text before the last '/' agrees on both paths (their parent directory),
and "File Moved" otherwise; "/x/a.txt" to "/x/b.txt" gives the rename title,
"/x/a.txt" to "/y/a.txt" gives "File Moved"; the priority is 3 in both
cases. -/
theorem C5_moved_title :
    (∀ h env e, (on_moved_payload h env e).title =
      some (if rsplitSlashHead e.src_path = rsplitSlashHead e.dest_path then
          "File Renamed: " ++ basename e.src_path ++ " → " ++ basename e.dest_path
        else "File Moved")) ∧
    (∀ h env e, (on_moved_payload h env e).priority = some 3) ∧
    (∀ h env, (on_moved_payload h env
      ⟨EventKind.moved, "/x/a.txt", "/x/b.txt", false⟩).title =
        some "File Renamed: a.txt → b.txt") ∧
    (∀ h env, (on_moved_payload h env
      ⟨EventKind.moved, "/x/a.txt", "/y/a.txt", false⟩).title =
        some "File Moved") := by
  refine ⟨fun h env e => ?_, fun _ _ _ => rfl, fun h env => ?_, fun h env => ?_⟩
  · have h0 : (on_moved_payload h env e).title =
        if (movedTitle e).length = 0 then Option.none else some (movedTitle e) := rfl
    rw [h0, if_neg (movedTitle_length_pos e), movedTitle]
  · show (if (movedTitle ⟨EventKind.moved, "/x/a.txt", "/x/b.txt", false⟩).length = 0
        then Option.none
        else some (movedTitle ⟨EventKind.moved, "/x/a.txt", "/x/b.txt", false⟩)) =
      some "File Renamed: a.txt → b.txt"
    decide
  · show (if (movedTitle ⟨EventKind.moved, "/x/a.txt", "/y/a.txt", false⟩).length = 0
        then Option.none
        else some (movedTitle ⟨EventKind.moved, "/x/a.txt", "/y/a.txt", false⟩)) =
      some "File Moved"
    decide

/-- Claim C6: created events carry title "File Created", priority 3 and tag
string "file_folder,new"; modified events "File Modified", priority 2,
"pencil"; deleted events "File Deleted", priority 4, "wastebasket,warning";
and a truthy tag string is always encoded as the single-element list holding
the comma-joined string, never split. -/
theorem C6_event_payloads :
    (∀ h env e, (on_created_payload h env e).title = some "File Created" ∧
      (on_created_payload h env e).priority = some 3 ∧
      (on_created_payload h env e).tags = some ["file_folder,new"]) ∧
    (∀ h env e, (on_modified_payload h env e).title = some "File Modified" ∧
      (on_modified_payload h env e).priority = some 2 ∧
      (on_modified_payload h env e).tags = some ["pencil"]) ∧
    (∀ h env e, (on_deleted_payload h env e).title = some "File Deleted" ∧
      (on_deleted_payload h env e).priority = some 4 ∧
      (on_deleted_payload h env e).tags = some ["wastebasket,warning"]) ∧
    (∀ h m t p s c a ac, (send_payload h m t p (some s) c a ac).tags =
      if s.length = 0 then Option.none else some [s]) :=
  ⟨fun _ _ _ => ⟨rfl, rfl, rfl⟩, fun _ _ _ => ⟨rfl, rfl, rfl⟩,
    fun _ _ _ => ⟨rfl, rfl, rfl⟩, fun _ _ _ _ _ _ _ _ => rfl⟩

/-- Claim C7: every payload the program builds carries the configured topic —
`send_notification` writes `self.topic` unconditionally, so every per-event
payload and the start/stop payloads agree with the handler's topic. -/
theorem C7_topic_invariant :
    (∀ h m t p tg c a ac, (send_payload h m t p tg c a ac).topic = h.topic) ∧
    (∀ h env e, (eventPayload h env e).topic = h.topic) ∧
    (∀ h, (startup_payload h).topic = h.topic) ∧
    (∀ h, (stop_payload h).topic = h.topic) := by
  refine ⟨fun _ _ _ _ _ _ _ _ => rfl, fun h env e => ?_, fun _ => rfl, fun _ => rfl⟩
  obtain ⟨k, s, d, b⟩ := e
  cases k <;> rfl

/-- Claim C8: when the configured path is missing, `main` logs the fatal
configuration error and exits with status 1, and its trace contains no
notification send and no observer start; when the path exists, the
interruption-triggered run begins with the "Folder Monitoring Started"
notification and ends with exit status 0. -/
theorem C8_main_exit :
    (∀ h p, mainTrace false h p =
      [MainAction.logError ("The specified path does not exist: " ++ p),
        MainAction.exitProcess 1]) ∧
    (∀ h p, (mainTrace false h p).all
      (fun a => match a with
        | MainAction.sendPayload _ => false
        | MainAction.observerStart => false
        | _ => true) = true) ∧
    (∀ h p, (mainTrace true h p).head? =
      some (MainAction.sendPayload (startup_payload h))) ∧
    (∀ h p, (mainTrace true h p).getLast? = some (MainAction.exitProcess 0)) :=
  ⟨fun _ _ => rfl, fun _ _ => rfl, fun _ _ => rfl, fun _ _ => rfl⟩

/-- Claim C9: the filter reads only the source path and the directory flag —
two events agreeing there get the same verdict whatever their kind or
destination — so under the allow-list [".txt"] a move from "/w/a.md" to
"/w/b.txt" is rejected while a move from "/w/a.txt" to "/w/b.md" is
accepted. -/
theorem C9_filter_ignores_dest :
    (∀ h (e1 e2 : FileEvent), e1.src_path = e2.src_path →
      e1.is_directory = e2.is_directory →
      should_process_event h e1 = should_process_event h e2) ∧
    should_process_event ⟨"alerts", [".txt"], true⟩
      ⟨EventKind.moved, "/w/a.md", "/w/b.txt", false⟩ = false ∧
    should_process_event ⟨"alerts", [".txt"], true⟩
      ⟨EventKind.moved, "/w/a.txt", "/w/b.md", false⟩ = true := by
  refine ⟨fun h e1 e2 hs hd => ?_, by decide, by decide⟩
  simp only [should_process_event, hs, hd]

/-- Witness for C9: the verdict on "/w/a.txt" is unchanged when only the
destination differs. -/
theorem C9_filter_ignores_dest_witness :
    should_process_event ⟨"alerts", [".txt"], true⟩
      ⟨EventKind.moved, "/w/a.txt", "/w/b.md", false⟩ =
    should_process_event ⟨"alerts", [".txt"], true⟩
      ⟨EventKind.moved, "/w/a.txt", "/elsewhere/c.pdf", false⟩ :=
  C9_filter_ignores_dest.1 ⟨"alerts", [".txt"], true⟩
    ⟨EventKind.moved, "/w/a.txt", "/w/b.md", false⟩
    ⟨EventKind.moved, "/w/a.txt", "/elsewhere/c.pdf", false⟩ rfl rfl

/-- Claim C10: falsy optional arguments are treated as absent — an empty
title, an empty tag string, priority 0 and priority None all leave their key
out of the payload — while the topic and message keys are present in every
payload. -/
theorem C10_falsy_omitted :
    (∀ h m p tg c a ac,
      (send_payload h m (some "") p tg c a ac).title = Option.none) ∧
    (∀ h m t p c a ac,
      (send_payload h m t p (some "") c a ac).tags = Option.none) ∧
    (∀ h m t tg c a ac,
      (send_payload h m t (PriorityArg.pint 0) tg c a ac).priority = Option.none) ∧
    (∀ h m t tg c a ac,
      (send_payload h m t PriorityArg.pnone tg c a ac).priority = Option.none) ∧
    (∀ h m t p tg c a ac, (send_payload h m t p tg c a ac).topic = h.topic ∧
      (send_payload h m t p tg c a ac).message = m) :=
  ⟨fun _ _ _ _ _ _ _ => rfl, fun _ _ _ _ _ _ _ => rfl,
    fun _ _ _ _ _ _ _ => rfl, fun _ _ _ _ _ _ _ => rfl,
    fun _ _ _ _ _ _ _ _ => ⟨rfl, rfl⟩⟩

end FolderMonitor
